import Mathlib

/-!
Verification development for the connectify repository: a shallow embedding
of its tRPC wiring (router, caller, context factory), the query-client
factory, the transport route handler and the server-rendered Home page,
with theorems settling the specification claims.
-/

namespace Connectify

/-! ### Data model -/

/-- JSON-like values: inputs and results of procedures. -/
inductive Json where
  | null : Json
  | bool : Bool → Json
  | num : Int → Json
  | str : String → Json
  | arr : List Json → Json
  | obj : List (String × Json) → Json

/-- The empty object literal, the value the getUsers handler returns. -/
def emptyObj : Json := Json.obj []

/-- Request context: the caller identity threaded into every procedure
invocation (the shape used throughout the tests: an object with a userId). -/
structure Context where
  userId : String
deriving DecidableEq, Repr

/-- Abstract state of the persistence layer behind the prisma client. -/
structure Db where
  rows : List (String × String)
deriving DecidableEq, Repr

/-! ### Router builder and caller (src/trpc/init.ts is absent from src;
its tests and callers pin its behaviour) -/

/-- A registered procedure: a handler over the request context. Database
state is threaded explicitly and a thrown handler exception is an
Except.error result. -/
structure Procedure where
  handler : Context → Db → Except String Json × Db

/-- Modelled from the spec: createTRPCRouter of the missing
src/trpc/init.ts "accepts a mapping of procedure name → Procedure
Definition and returns an immutable Router". -/
structure Router where
  procedures : List (String × Procedure)

/-- Modelled from the spec: the Router Builder constructor. -/
def createTRPCRouter (procs : List (String × Procedure)) : Router :=
  ⟨procs⟩

/-- Modelled from the spec: baseProcedure.query wraps a handler into a
Procedure Definition (the base procedure adds no middleware in current
scope). -/
def baseProcedureQuery (h : Context → Db → Except String Json × Db) :
    Procedure :=
  ⟨h⟩

/-- Modelled from the spec: Router.createCaller(context) "returns an object
whose methods are the registered procedure names, each invokable directly
with the given context (no network hop)"; member access is resolution by
exact name. -/
def Router.createCaller (r : Router) (ctx : Context) :
    String → Option (Db → Except String Json × Db) :=
  fun name => (List.lookup name r.procedures).map fun p => p.handler ctx

/-- Invoking a named member of the caller object on a database state. -/
def callProcedure (r : Router) (ctx : Context) (name : String) (db : Db) :
    Option (Except String Json × Db) :=
  (r.createCaller ctx name).map fun call => call db

/-! ### The app router (embedded from src/trpc/routers/_app.ts) -/

/-- The getUsers handler embedded from src/trpc/routers/_app.ts lines 5-7:
its body is a single `return` of the empty object literal; it ignores its
options and contains no prisma operation, so the database state passes
through unchanged. -/
def getUsersHandler (_ctx : Context) (db : Db) : Except String Json × Db :=
  (Except.ok emptyObj, db)

/-- appRouter from src/trpc/routers/_app.ts: one registered procedure,
getUsers. -/
def appRouter : Router :=
  createTRPCRouter [("getUsers", baseProcedureQuery getUsersHandler)]

/-- One invocation of caller.getUsers: the member named getUsers of the
caller object, applied to a database state (a missing member would be the
error branch; the lemmas below show the some branch is always taken). -/
def getUsersCall (ctx : Context) (db : Db) : Except String Json × Db :=
  match appRouter.createCaller ctx "getUsers" with
  | some call => call db
  | none => (Except.error "member missing", db)

/-- A sequence of caller.getUsers invocations, one per context, in order,
threading the database state; returns the list of results and the final
state. -/
def runGetUsersCalls : List Context → Db → List (Except String Json) × Db
  | [], db => ([], db)
  | ctx :: rest, db =>
      let r := getUsersCall ctx db
      let t := runGetUsersCalls rest r.2
      (r.1 :: t.1, t.2)

/-! ### Context factory (src/trpc/init.ts is absent from src) -/

/-- Modelled from the spec: createTRPCContext of the missing
src/trpc/init.ts — the Context Factory "produce[s] a context object
containing at minimum a caller identity field", with "Failure mode: none
defined in current scope (always succeeds)" and memoized idempotence within
a request scope; the static placeholder identity user_123 is pinned by
src/trpc/__tests__/init.test.ts. -/
def createTRPCContext (_u : Unit) : Except String Context :=
  Except.ok ⟨"user_123"⟩

/-! ### Query client factory (src/trpc/query-client.ts is absent from src) -/

/-- Lifecycle status of a cached query, as observed by the dehydration
predicate (the mock queries of src/trpc/__tests__/query-client.test.ts). -/
inductive QueryStatus where
  | pending
  | success
  | error
deriving DecidableEq, Repr

/-- Modelled from the spec: the dehydration predicate installed by
makeQueryClient of the missing src/trpc/query-client.ts — "Only cache
entries whose underlying query is in a pending or terminal success
state are eligible for dehydration to the client; entries in an error
state are excluded". -/
def shouldDehydrateQuery : QueryStatus → Bool
  | QueryStatus.pending => true
  | QueryStatus.success => true
  | QueryStatus.error => false

/-- Default per-query options of a client. -/
structure QueryDefaults where
  staleTime : Nat
deriving DecidableEq, Repr

/-- Default dehydration options of a client. -/
structure DehydrateDefaults where
  shouldDehydrateQuery : QueryStatus → Bool

/-- The default options a query client is configured with. -/
structure DefaultOptions where
  queries : QueryDefaults
  dehydrate : DehydrateDefaults

/-- Modelled from the spec: the defaults makeQueryClient configures —
"Cache entries default to a staleness window of 30 seconds" (milliseconds
here) and the dehydration predicate above. -/
def defaultOptions : DefaultOptions :=
  ⟨⟨30 * 1000⟩, ⟨shouldDehydrateQuery⟩⟩

/-- Modelled from the spec: staleness is time-driven — an entry fetched at
fetchedAt is eligible for background refetch at time now exactly when the
staleness window has elapsed ("immediately after a successful fetch, the
entry is not eligible for background refetch; after the window elapses, it
is"). Times in milliseconds. -/
def isStaleAt (staleTime fetchedAt now : Nat) : Bool :=
  decide (fetchedAt + staleTime ≤ now)

/-- The observable state of one query client instance: its default options
and its stored key/value cache entries (most recent write first). -/
structure QueryClient where
  defaults : DefaultOptions
  cache : List (String × Json)

/-- A freshly constructed client: the modelled defaults, empty cache. -/
def freshQueryClient : QueryClient :=
  ⟨defaultOptions, []⟩

/-- Allocation made explicit: the world lists every client instance created
so far, and the identity of an instance is its index in that list (two
distinct indices are two distinct heap objects). -/
structure World where
  clients : List QueryClient

/-- Modelled from the spec: "Each call returns an independent cache
instance — no shared mutable state across calls": makeQueryClient
allocates a fresh client and returns its identity with the new world. -/
def makeQueryClient (w : World) : Nat × World :=
  (w.clients.length, ⟨w.clients ++ [freshQueryClient]⟩)

/-- setQueryData on the instance with identity id: prepends the key/value
pair to that instance's cache, touching no other instance. -/
def World.setQueryData (w : World) (id : Nat) (k : String) (v : Json) :
    World :=
  match w.clients[id]? with
  | some c => ⟨w.clients.set id ⟨c.defaults, (k, v) :: c.cache⟩⟩
  | none => w

/-- getQueryData on the instance with identity id: most recent write to the
key wins. -/
def World.getQueryData (w : World) (id : Nat) (k : String) : Option Json :=
  (w.clients[id]?).bind fun c => List.lookup k c.cache

/-! ### Transport adapter (src/app/api/trpc/[trpc]/route.ts is absent from
src; src/unnamed/part_003 is its test) -/

/-- The body of an inbound HTTP request; malformed JSON is represented
explicitly (the wire text failed to parse). -/
inductive Body where
  | empty : Body
  | malformed : Body
  | json : Json → Body

/-- An inbound HTTP request to the tRPC endpoint: method, the procedure
name extracted from the URL path, and the body. -/
structure HttpRequest where
  method : String
  procName : String
  body : Body

/-- Error classes of the structured error responses. -/
inductive ErrClass where
  | notFound
  | badRequest
  | internal
deriving DecidableEq, Repr

/-- The JSON body of a response: a procedure result or a structured error
(code, message). -/
inductive RespBody where
  | result : Json → RespBody
  | failure : ErrClass → String → RespBody

/-- An HTTP response: status code and JSON body. -/
structure HttpResponse where
  status : Nat
  body : RespBody

/-- Modelled from the spec: the request handler of the missing
src/app/api/trpc/[trpc]/route.ts (fetchRequestHandler wired to appRouter
and createTRPCContext). It "extracts the procedure name and input",
"constructs a fresh Context via the Context Factory, invokes the Router,
and serializes the result (or error) as an HTTP response": an unregistered
procedure name yields a NotFound-class error response, a malformed body a
BadInput-class one, and "unexpected handler exceptions are caught at the
Transport Adapter boundary and converted to a generic error response
rather than crashing the request-handling task" — the function is total,
so every request produces a Response. -/
def fetchRequestHandler (req : HttpRequest) (db : Db) : HttpResponse × Db :=
  match List.lookup req.procName appRouter.procedures with
  | none => (⟨404, RespBody.failure ErrClass.notFound "NOT_FOUND"⟩, db)
  | some p =>
      match req.body with
      | Body.malformed =>
          (⟨400, RespBody.failure ErrClass.badRequest "BAD_REQUEST"⟩, db)
      | _ =>
          match createTRPCContext () with
          | Except.error m =>
              (⟨500, RespBody.failure ErrClass.internal m⟩, db)
          | Except.ok ctx =>
              match p.handler ctx db with
              | (Except.ok j, db2) => (⟨200, RespBody.result j⟩, db2)
              | (Except.error m, db2) =>
                  (⟨500, RespBody.failure ErrClass.internal m⟩, db2)

/-- Modelled from the spec: the route module exports the one entry point
under the GET method name ("supporting GET ... and POST ..., both handled
by one entry point"). -/
def GET : HttpRequest → Db → HttpResponse × Db :=
  fetchRequestHandler

/-- Modelled from the spec: the same entry point exported under the POST
method name. -/
def POST : HttpRequest → Db → HttpResponse × Db :=
  fetchRequestHandler

/-! ### Server caller and the Home page (src/app/page.tsx; the caller it
imports comes from the missing src/trpc/server.ts) -/

/-- Modelled from the spec: the server-side context the missing
src/trpc/server.ts builds via the Context Factory for its local caller. -/
def serverContext : Context :=
  ⟨"user_123"⟩

/-- Modelled from the spec: the "local caller" of the missing
src/trpc/server.ts — "Direct in-process procedure invocation (bypassing
the transport layer) ... a distinct local caller interface over the same
Router abstraction": appRouter.createCaller bound to the server context. -/
def serverCaller : String → Option (Db → Except String Json × Db) :=
  appRouter.createCaller serverContext

/-- caller.getUsers as invoked by the page: the getUsers member of the
server caller (the member exists; see the caller lemmas). -/
def callerGetUsers (db : Db) : Except String Json × Db :=
  match serverCaller "getUsers" with
  | some call => call db
  | none => (Except.error "member missing", db)

/-- Steps the Home page performs, in execution order. -/
inductive Event where
  | authCheck
  | getUsersCall
deriving DecidableEq, Repr

/-- A rejection of the require-authenticated-caller check. -/
structure AuthError where
  msg : String
deriving DecidableEq, Repr

/-- A failure that aborts the rendering of the page. -/
inductive PageError where
  | auth : AuthError → PageError
  | handler : String → PageError
deriving DecidableEq, Repr

/-- Embedding of Home from src/app/page.tsx lines 5-11: `await
requireAuth()` then `const data = await caller.getUsers()` then render the
data — two sequential awaits, so the second step runs only if the first
resolved. requireAuth is implemented outside src/ (lib/auth-utils) and
enters as its result; each step the page actually performs is recorded in
the returned event trace. A rejected await rethrows, aborting the page. -/
def Home (authResult : Except AuthError Unit) (db : Db) :
    (Except PageError Json × Db) × List Event :=
  match authResult with
  | Except.error e => ((Except.error (PageError.auth e), db), [Event.authCheck])
  | Except.ok _ =>
      match callerGetUsers db with
      | (Except.ok j, db2) =>
          ((Except.ok j, db2), [Event.authCheck, Event.getUsersCall])
      | (Except.error m, db2) =>
          ((Except.error (PageError.handler m), db2),
            [Event.authCheck, Event.getUsersCall])

/-! ### Supporting lemmas -/

/-- The getUsers member of any caller of the app router resolves to the
embedded handler. -/
theorem createCaller_getUsers (ctx : Context) :
    appRouter.createCaller ctx "getUsers" = some (getUsersHandler ctx) :=
  rfl

/-- One caller.getUsers invocation returns the empty object and passes the
database state through. -/
theorem getUsersCall_eq (ctx : Context) (db : Db) :
    getUsersCall ctx db = (Except.ok emptyObj, db) :=
  rfl

/-- The getUsers member of the server caller behaves the same way. -/
theorem callerGetUsers_eq (db : Db) :
    callerGetUsers db = (Except.ok emptyObj, db) :=
  rfl

/-- A sequence of caller.getUsers invocations returns the empty object for
every call and leaves the database state where it started. -/
theorem runGetUsersCalls_eq (ctxs : List Context) (db : Db) :
    runGetUsersCalls ctxs db = (ctxs.map fun _ => Except.ok emptyObj, db) := by
  induction ctxs generalizing db with
  | nil => rfl
  | cons c rest ih =>
      simp [runGetUsersCalls, getUsersCall_eq, ih]

/-- Name lookup in an association list succeeds for every key present in
the list of first components. -/
theorem lookup_isSome_of_mem_keys {β : Type} (name : String)
    (l : List (String × β)) (h : name ∈ l.map Prod.fst) :
    (List.lookup name l).isSome = true := by
  induction l with
  | nil => simp at h
  | cons p rest ih =>
      cases hk : name == p.1 with
      | true => simp [List.lookup, hk]
      | false =>
          have hne : name ≠ p.1 := by
            intro he
            rw [he] at hk
            simp at hk
          simp only [List.map_cons, List.mem_cons] at h
          rcases h with h | h
          · exact absurd h hne
          · simpa [List.lookup, hk] using ih h

/-- Frame property of the world of query-client instances: writing a key
on the instance at index i is invisible from a different index j, and
readable back at i. -/
theorem world_isolation (cs : List QueryClient) (i j : Nat) (hij : i ≠ j)
    (ci : QueryClient) (hi : cs[i]? = some ci)
    (k : String) (v : Json) :
    (World.setQueryData ⟨cs⟩ i k v).getQueryData j k
      = World.getQueryData ⟨cs⟩ j k
    ∧ (World.setQueryData ⟨cs⟩ i k v).getQueryData i k = some v := by
  have hilen : i < cs.length := by
    by_contra hc
    push_neg at hc
    rw [List.getElem?_eq_none hc] at hi
    cases hi
  have hset : World.setQueryData ⟨cs⟩ i k v
      = ⟨cs.set i ⟨ci.defaults, (k, v) :: ci.cache⟩⟩ := by
    simp only [World.setQueryData, hi]
  constructor
  · rw [hset]
    simp only [World.getQueryData]
    rw [List.getElem?_set_ne hij]
  · rw [hset]
    simp only [World.getQueryData]
    rw [List.getElem?_set, if_pos rfl, if_pos hilen]
    simp [List.lookup]

/-! ### Claim theorems -/

/-- Claim C1: for every context and database state, invoking the getUsers
procedure of appRouter via a caller returns the empty object; any number
and order of calls all return the empty object, and two invocations with
different contexts (user1 vs user2) produce identical results, so no
context identity appears in another call result. -/
theorem getUsers_pure_and_context_independent :
    (∀ (ctx : Context) (db : Db),
        callProcedure appRouter ctx "getUsers" db
          = some (Except.ok emptyObj, db))
    ∧ (∀ (ctxs : List Context) (db : Db),
        runGetUsersCalls ctxs db
          = (ctxs.map fun _ => Except.ok emptyObj, db))
    ∧ (∀ (db : Db),
        callProcedure appRouter ⟨"user1"⟩ "getUsers" db
          = callProcedure appRouter ⟨"user2"⟩ "getUsers" db) :=
  ⟨fun _ _ => rfl, runGetUsersCalls_eq, fun _ => rfl⟩

/-- Claim C2: the query client defaults configure a staleness window of
exactly 30 seconds (30 * 1000 ms): immediately after a fetch an entry is
not eligible for background refetch, it stays ineligible strictly within
the window, and once 30 seconds have elapsed it is eligible. -/
theorem staleTime_thirty_seconds :
    defaultOptions.queries.staleTime = 30 * 1000
    ∧ (∀ t : Nat, isStaleAt defaultOptions.queries.staleTime t t = false)
    ∧ (∀ t d : Nat, d < 30 * 1000 →
        isStaleAt defaultOptions.queries.staleTime t (t + d) = false)
    ∧ (∀ t d : Nat, 30 * 1000 ≤ d →
        isStaleAt defaultOptions.queries.staleTime t (t + d) = true) := by
  refine ⟨rfl, ?_, ?_, ?_⟩
  · intro t
    simp only [isStaleAt, defaultOptions, decide_eq_false_iff_not]
    omega
  · intro t d h
    simp only [isStaleAt, defaultOptions, decide_eq_false_iff_not]
    omega
  · intro t d h
    simp only [isStaleAt, defaultOptions, decide_eq_true_eq]
    omega

/-- Witness for C2 at the boundary: 29999 ms elapsed is fresh, 30000 ms
elapsed is stale. -/
theorem staleTime_thirty_seconds_witness :
    isStaleAt defaultOptions.queries.staleTime 5 (5 + 29999) = false
    ∧ isStaleAt defaultOptions.queries.staleTime 5 (5 + 30000) = true :=
  ⟨staleTime_thirty_seconds.2.2.1 5 29999 (by norm_num),
    staleTime_thirty_seconds.2.2.2 5 30000 (by norm_num)⟩

/-- Claim C4: the dehydration predicate of the client defaults returns
true for a query whose state status is pending, returns a boolean for a
query in success state, and returns false for a query in error state. -/
theorem dehydrate_policy :
    defaultOptions.dehydrate.shouldDehydrateQuery QueryStatus.pending = true
    ∧ (defaultOptions.dehydrate.shouldDehydrateQuery QueryStatus.success = true
        ∨ defaultOptions.dehydrate.shouldDehydrateQuery QueryStatus.success
            = false)
    ∧ defaultOptions.dehydrate.shouldDehydrateQuery QueryStatus.error
        = false :=
  ⟨rfl, Or.inl rfl, rfl⟩

/-- Claim C5: createTRPCContext never fails — every invocation resolves to
the context whose userId is the static placeholder user_123 — and any two
invocations yield equal contexts. -/
theorem createTRPCContext_total_and_static :
    ∀ (u v : Unit),
      createTRPCContext u = Except.ok ⟨"user_123"⟩
      ∧ createTRPCContext u = createTRPCContext v :=
  fun _ _ => ⟨rfl, rfl⟩

/-- Claim C6: the registered procedure names of appRouter are exactly
getUsers, and for every router, context and registered procedure name the
caller object exposes a callable member under that exact name. -/
theorem caller_exposes_registered_names :
    (appRouter.procedures.map Prod.fst = ["getUsers"])
    ∧ ∀ (r : Router) (ctx : Context) (name : String),
        name ∈ r.procedures.map Prod.fst →
        (r.createCaller ctx name).isSome = true := by
  refine ⟨rfl, ?_⟩
  intro r ctx name h
  have h2 := lookup_isSome_of_mem_keys name r.procedures h
  cases hl : List.lookup name r.procedures with
  | none => rw [hl] at h2; simp at h2
  | some p => simp [Router.createCaller, hl]

/-- Witness for C6: the app router caller exposes getUsers. -/
theorem caller_exposes_registered_names_witness :
    (appRouter.createCaller ⟨"user_123"⟩ "getUsers").isSome = true :=
  caller_exposes_registered_names.2 appRouter ⟨"user_123"⟩ "getUsers"
    (by decide)

/-- Claim C7: the transport endpoint exports the same function as its GET
and POST handlers, so for any request and database state the two produce
equal responses. -/
theorem get_post_single_entry_point :
    GET = POST ∧ ∀ (req : HttpRequest) (db : Db), GET req db = POST req db :=
  ⟨rfl, fun _ _ => rfl⟩

/-- Claim C10: the getUsers handler performs no reads or writes of the
persistence layer — its result is the empty object independent of the
database contents, and the database state is unchanged by the call. -/
theorem getUsers_no_persistence_effect :
    ∀ (ctx : Context) (db db2 : Db),
      (getUsersHandler ctx db).2 = db
      ∧ (getUsersHandler ctx db).1 = Except.ok emptyObj
      ∧ (getUsersHandler ctx db).1 = (getUsersHandler ctx db2).1 :=
  fun _ _ _ => ⟨rfl, rfl, rfl⟩

/-- Claim C3: two consecutive makeQueryClient calls return distinct
instances, and their stored key/value state is isolated: for any key and
value, setting the key on either instance leaves the value of that key on
the other instance unchanged, while the write is observable on the
instance written to. -/
theorem makeQueryClient_instances_isolated :
    ∀ (w : World) (k : String) (v : Json),
      (makeQueryClient w).1 ≠ (makeQueryClient (makeQueryClient w).2).1
      ∧ (((makeQueryClient (makeQueryClient w).2).2.setQueryData
              (makeQueryClient w).1 k v).getQueryData
            (makeQueryClient (makeQueryClient w).2).1 k
          = (makeQueryClient (makeQueryClient w).2).2.getQueryData
              (makeQueryClient (makeQueryClient w).2).1 k)
      ∧ (((makeQueryClient (makeQueryClient w).2).2.setQueryData
              (makeQueryClient (makeQueryClient w).2).1 k v).getQueryData
            (makeQueryClient w).1 k
          = (makeQueryClient (makeQueryClient w).2).2.getQueryData
              (makeQueryClient w).1 k)
      ∧ (((makeQueryClient (makeQueryClient w).2).2.setQueryData
              (makeQueryClient w).1 k v).getQueryData
            (makeQueryClient w).1 k = some v)
      ∧ (((makeQueryClient (makeQueryClient w).2).2.setQueryData
              (makeQueryClient (makeQueryClient w).2).1 k v).getQueryData
            (makeQueryClient (makeQueryClient w).2).1 k = some v) := by
  intro w k v
  have hj : ((w.clients ++ [freshQueryClient])
        ++ [freshQueryClient])[(w.clients ++ [freshQueryClient]).length]?
      = some freshQueryClient :=
    List.getElem?_concat_length _ _
  have hi : ((w.clients ++ [freshQueryClient])
        ++ [freshQueryClient])[w.clients.length]?
      = some freshQueryClient := by
    rw [List.getElem?_append]
    simp [List.getElem?_concat_length]
  have hij : w.clients.length ≠ (w.clients ++ [freshQueryClient]).length := by
    simp
  have h1 := world_isolation _ _ _ hij _ hi k v
  have h2 := world_isolation _ _ _ (Ne.symm hij) _ hj k v
  exact ⟨hij, h1.1, h2.1, h1.2, h2.2⟩

/-- Claim C9: every execution of Home performs the require-authenticated-
caller check first (the first recorded event is always authCheck); when
that check rejects, caller.getUsers is never invoked and no data is
produced; and getUsers is only ever invoked in a run where the check
succeeded and preceded it. -/
theorem home_auth_gates_getUsers :
    ∀ (auth : Except AuthError Unit) (db : Db),
      ((Home auth db).2.head? = some Event.authCheck)
      ∧ (∀ e, auth = Except.error e →
          ¬ Event.getUsersCall ∈ (Home auth db).2
          ∧ (Home auth db).1.1 = Except.error (PageError.auth e))
      ∧ (Event.getUsersCall ∈ (Home auth db).2 →
          (Home auth db).2 = [Event.authCheck, Event.getUsersCall]
          ∧ auth = Except.ok ()) := by
  intro auth db
  cases auth with
  | error e =>
      refine ⟨rfl, ?_, ?_⟩
      · intro e2 he
        cases he
        exact ⟨by simp [Home], rfl⟩
      · intro hmem
        simp [Home] at hmem
  | ok u =>
      cases u
      have hrun : Home (Except.ok ()) db
          = ((Except.ok emptyObj, db),
              [Event.authCheck, Event.getUsersCall]) := rfl
      refine ⟨by rw [hrun]; rfl, ?_, ?_⟩
      · intro e2 he
        cases he
      · intro _
        exact ⟨by rw [hrun], rfl⟩

/-- Witness for C9: with a rejected auth check and an empty database, the
getUsers call never happens. -/
theorem home_auth_gates_getUsers_witness :
    ¬ Event.getUsersCall
        ∈ (Home (Except.error ⟨"unauthenticated"⟩) ⟨[]⟩).2 :=
  ((home_auth_gates_getUsers (Except.error ⟨"unauthenticated"⟩) ⟨[]⟩).2.1
    ⟨"unauthenticated"⟩ rfl).1

/-- Claim C8: the transport handler never lets an exception escape — every
request gets an HTTP response of a known class: an unregistered procedure
name yields the NotFound error response, a malformed body yields a
NotFound or BadRequest error response, a handler exception is converted to
the generic 500 error response, and every response status is one of 200,
400, 404, 500. -/
theorem route_errors_as_responses :
    ∀ (req : HttpRequest) (db : Db),
      ((List.lookup req.procName appRouter.procedures).isNone = true →
        fetchRequestHandler req db
          = (⟨404, RespBody.failure ErrClass.notFound "NOT_FOUND"⟩, db))
      ∧ (req.body = Body.malformed →
          fetchRequestHandler req db
              = (⟨404, RespBody.failure ErrClass.notFound "NOT_FOUND"⟩, db)
          ∨ fetchRequestHandler req db
              = (⟨400, RespBody.failure ErrClass.badRequest "BAD_REQUEST"⟩,
                  db))
      ∧ (∀ (p : Procedure) (m : String) (db2 : Db),
          List.lookup req.procName appRouter.procedures = some p →
          req.body ≠ Body.malformed →
          p.handler ⟨"user_123"⟩ db = (Except.error m, db2) →
          fetchRequestHandler req db
            = (⟨500, RespBody.failure ErrClass.internal m⟩, db2))
      ∧ ((fetchRequestHandler req db).1.status = 200
          ∨ (fetchRequestHandler req db).1.status = 400
          ∨ (fetchRequestHandler req db).1.status = 404
          ∨ (fetchRequestHandler req db).1.status = 500) := by
  intro req db
  cases hl : List.lookup req.procName appRouter.procedures with
  | none =>
      refine ⟨fun _ => by simp [fetchRequestHandler, hl], ?_, ?_, ?_⟩
      · intro _
        left
        simp [fetchRequestHandler, hl]
      · intro p m db2 hp _ _
        cases hp
      · simp [fetchRequestHandler, hl]
  | some p =>
      refine ⟨?_, ?_, ?_, ?_⟩
      · intro hn
        simp at hn
      · intro hb
        right
        simp [fetchRequestHandler, hl, hb]
      · intro p2 m db2 hp hb hh
        injection hp with hpe
        subst hpe
        cases hbody : req.body with
        | malformed => exact absurd hbody hb
        | empty =>
            simp only [fetchRequestHandler, hl, hbody, createTRPCContext, hh]
        | json j =>
            simp only [fetchRequestHandler, hl, hbody, createTRPCContext, hh]
      · cases hbody : req.body with
        | malformed => simp [fetchRequestHandler, hl, hbody]
        | empty =>
            cases hh : p.handler ⟨"user_123"⟩ db with
            | mk r db2 =>
                cases r with
                | ok j =>
                    simp [fetchRequestHandler, hl, hbody,
                      createTRPCContext, hh]
                | error m =>
                    simp [fetchRequestHandler, hl, hbody,
                      createTRPCContext, hh]
        | json j =>
            cases hh : p.handler ⟨"user_123"⟩ db with
            | mk r db2 =>
                cases r with
                | ok jr =>
                    simp [fetchRequestHandler, hl, hbody,
                      createTRPCContext, hh]
                | error m =>
                    simp [fetchRequestHandler, hl, hbody,
                      createTRPCContext, hh]

/-- Witness for C8: a request for an unregistered procedure name gets the
NotFound error response, not a crash. -/
theorem route_errors_as_responses_witness :
    fetchRequestHandler ⟨"GET", "nonexistent", Body.empty⟩ ⟨[]⟩
      = (⟨404, RespBody.failure ErrClass.notFound "NOT_FOUND"⟩, ⟨[]⟩) :=
  (route_errors_as_responses ⟨"GET", "nonexistent", Body.empty⟩ ⟨[]⟩).1
    (by decide)

end Connectify
